import Mathlib

/-!
Verification of the Exchange calendar integration
(packages/app-store/exchangecalendar): a shallow embedding of
`lib/CalendarService.ts` (the `ExchangeCalendarService` adapter) and
`lib/validation.ts` (the `ExchangeConfigValidator`), together with theorems
about the embedded operations.

The external EWS client library (ews-javascript-api) is an opaque
collaborator: its remote calls are modelled as oracle parameters (folder
search results, appointment query results, the set of item ids the server
can resolve, the outcome of NTLM transport setup), and its data carriers
(folders, appointments, identifiers) as plain structures holding exactly the
fields the adapter reads.  JavaScript `Error` objects are distinguished in
the source only by their `message`, so errors are embedded as `String`
messages copied verbatim from the source.
-/

namespace Exchange

/-- JavaScript truthiness of an optional string: `undefined` and the empty
string are falsy (`!x` is true), everything else truthy. -/
def truthyS : Option String → Bool
  | none => false
  | some s => s != ""

/-- JavaScript truthiness of an optional number: `undefined` and `0` are
falsy, everything else truthy. -/
def truthyN : Option Nat → Bool
  | none => false
  | some n => n != 0

/-- ASCII lowering of one character, the fragment of JS `toLowerCase()`
exercised by the adapter (URLs and folder paths). -/
def asciiLowerChar (c : Char) : Char :=
  if 'A' ≤ c ∧ c ≤ 'Z' then Char.ofNat (c.toNat + 32) else c

/-- ASCII lowering of a string (JS `toLowerCase()` on ASCII input). -/
def asciiLower (s : String) : String :=
  String.mk (s.data.map asciiLowerChar)

/-- JS `String.prototype.includes`: `strContains s pat` is true when `pat`
occurs as a contiguous substring of `s`. -/
def strContains (s pat : String) : Bool :=
  (s.data.tails).any (fun t => pat.data.isPrefixOf t)

/-- The fixed integration tag set in the adapter's constructor
(`this.integrationName = "exchange_calendar"`). -/
def integrationName : String := "exchange_calendar"

/-- Host-model calendar record produced by `listCalendars`
(`IntegrationCalendar` from the host's Calendar types, restricted to the
fields this adapter writes). -/
structure IntegrationCalendar where
  externalId : String
  name : String
  primary : Bool
  integration : String
deriving DecidableEq, Repr

/-- Host-model busy interval (`EventBusyDate`).  The source builds
`new Date(appointment.Start.ToISOString())`; the ISO string is kept as the
carrier of the instant. -/
structure EventBusyDate where
  start : String
  «end» : String
deriving DecidableEq, Repr

namespace LegacyFreeBusyStatus

/-- `LegacyFreeBusyStatus.Free` of ews-javascript-api (ordinal 0). -/
def Free : Nat := 0

end LegacyFreeBusyStatus

/-- A remote appointment as read by `getAvailability`: the adapter only
touches `Start`, `End` (as ISO strings) and `LegacyFreeBusyStatus`. -/
structure RemoteAppointment where
  Start : String
  End : String
  LegacyFreeBusyStatus : Nat
deriving DecidableEq, Repr

/-- A remote folder as read by `listCalendars`: the folder view requests
exactly id, parent id, display name and child folder count.  `DisplayName`
is optional (`folder.DisplayName ?? ""` in the source). -/
structure EwsFolder where
  Id : String
  ParentFolderId : String
  DisplayName : Option String
  ChildFolderCount : Nat
deriving DecidableEq, Repr

/-- `getAvailability(dateFrom, dateTo, selectedCalendars)` of
`CalendarService.ts`.  `calendars` is the result of the `listCalendars()`
call the operation starts with; `FindAppointments` is the remote query
oracle, giving for a folder's external id the appointments the server
returns inside the `[dateFrom, dateTo]` calendar view.  The source filters
the listed calendars to those whose `externalId` occurs among
`selectedCalendars`, queries each in parallel, keeps the appointments whose
`LegacyFreeBusyStatus` is not `Free`, maps each to `{start, end}`, and
flattens the joined per-calendar results. -/
def getAvailability (calendars selectedCalendars : List IntegrationCalendar)
    (FindAppointments : String → List RemoteAppointment) : List EventBusyDate :=
  ((calendars.filter (fun lcal =>
      selectedCalendars.any (fun rcal => lcal.externalId == rcal.externalId))).map
    (fun calendar =>
      ((FindAppointments calendar.externalId).filter
        (fun appointment =>
          appointment.LegacyFreeBusyStatus != LegacyFreeBusyStatus.Free)).map
        (fun appointment =>
          ({ start := appointment.Start, «end» := appointment.End } : EventBusyDate)))).flatten

/-- Stated from the spec's words, for comparison with `getAvailability`:
"exactly the concatenation, over the listed calendars whose externalId
occurs in selectedCalendars, of the start and end pairs of appointments
whose free/busy status is not free". -/
def availabilitySpec (calendars selectedCalendars : List IntegrationCalendar)
    (FindAppointments : String → List RemoteAppointment) : List EventBusyDate :=
  (calendars.filter (fun lcal =>
      selectedCalendars.any (fun rcal => lcal.externalId == rcal.externalId))).flatMap
    (fun calendar =>
      ((FindAppointments calendar.externalId).filter
        (fun appointment =>
          appointment.LegacyFreeBusyStatus != LegacyFreeBusyStatus.Free)).map
        (fun appointment =>
          ({ start := appointment.Start, «end» := appointment.End } : EventBusyDate)))

/-- `listCalendars()` of `CalendarService.ts`.  `deletedItemsFolderId` is
the unique id of the well-known DeletedItems folder (bound by a separate
lookup before the search); `folders` are the folders the deep
`FindFolders` search under the message root returns (already restricted by
the server to folder class `IPF.Appointment`).  The source drops folders
whose parent is the deleted-items folder and maps the rest to
`IntegrationCalendar` records. -/
def listCalendars (deletedItemsFolderId : String) (folders : List EwsFolder) :
    List IntegrationCalendar :=
  (folders.filter (fun folder => folder.ParentFolderId != deletedItemsFolderId)).map
    (fun folder =>
      { externalId := folder.Id
        name := folder.DisplayName.getD ""
        primary := decide (folder.ChildFolderCount > 0)
        integration := integrationName })

/-- C1: for every selectedCalendars list and every set of remote query
results, `getAvailability` returns exactly the concatenation, over the
listed calendars whose externalId occurs in selectedCalendars, of the
start and end pairs of the appointments whose free/busy status is not
Free; every busy interval in the output stems from a non-free appointment
of a selected calendar, every non-free appointment of a selected calendar
contributes its pair, and an empty selectedCalendars list yields the empty
list. -/
theorem getAvailability_exact (calendars selectedCalendars : List IntegrationCalendar)
    (FindAppointments : String → List RemoteAppointment) :
    getAvailability calendars selectedCalendars FindAppointments =
        availabilitySpec calendars selectedCalendars FindAppointments
    ∧ getAvailability calendars [] FindAppointments = []
    ∧ (∀ b ∈ getAvailability calendars selectedCalendars FindAppointments,
        ∃ cal ∈ calendars,
          (selectedCalendars.any (fun rcal => cal.externalId == rcal.externalId)) = true ∧
          ∃ a ∈ FindAppointments cal.externalId,
            a.LegacyFreeBusyStatus ≠ LegacyFreeBusyStatus.Free ∧
            b = { start := a.Start, «end» := a.End })
    ∧ (∀ cal ∈ calendars,
        (selectedCalendars.any (fun rcal => cal.externalId == rcal.externalId)) = true →
        ∀ a ∈ FindAppointments cal.externalId,
          a.LegacyFreeBusyStatus ≠ LegacyFreeBusyStatus.Free →
          ({ start := a.Start, «end» := a.End } : EventBusyDate) ∈
            getAvailability calendars selectedCalendars FindAppointments) := by
  refine ⟨?_, ?_, ?_, ?_⟩
  · simp [getAvailability, availabilitySpec, List.flatMap_def]
  · simp [getAvailability]
  · intro b hb
    simp only [getAvailability, List.mem_flatten, List.mem_map, List.mem_filter,
      bne_iff_ne, ne_eq] at hb
    obtain ⟨l, ⟨cal, ⟨hcal, hsel⟩, rfl⟩, hb⟩ := hb
    rw [List.mem_map] at hb
    obtain ⟨a, ha', rfl⟩ := hb
    rw [List.mem_filter] at ha'
    obtain ⟨ha, hstat⟩ := ha'
    exact ⟨cal, hcal, hsel, a, ha, by simpa using hstat, rfl⟩
  · intro cal hcal hsel a ha hstat
    simp only [getAvailability, List.mem_flatten]
    refine ⟨_, List.mem_map.mpr ⟨cal, List.mem_filter.mpr ⟨hcal, hsel⟩, rfl⟩, ?_⟩
    exact List.mem_map.mpr ⟨a, List.mem_filter.mpr ⟨ha, by simpa using hstat⟩, rfl⟩

/-- A sample calendar used to instantiate the availability theorem. -/
def sampleCal : IntegrationCalendar :=
  { externalId := "cal-1", name := "Calendar", primary := true, integration := integrationName }

/-- A sample non-free appointment returned for every folder query. -/
def sampleFind : String → List RemoteAppointment :=
  fun _ =>
    [{ Start := "2024-01-01T10:00:00Z", End := "2024-01-01T11:00:00Z",
       LegacyFreeBusyStatus := 2 }]

/-- Witness for C1: a concrete non-free appointment of a selected calendar
contributes its interval to the output. -/
theorem getAvailability_exact_witness :
    ({ start := "2024-01-01T10:00:00Z", «end» := "2024-01-01T11:00:00Z" } : EventBusyDate) ∈
      getAvailability [sampleCal] [sampleCal] sampleFind :=
  (getAvailability_exact [sampleCal] [sampleCal] sampleFind).2.2.2 sampleCal (by decide)
    (by decide)
    { Start := "2024-01-01T10:00:00Z", End := "2024-01-01T11:00:00Z",
      LegacyFreeBusyStatus := 2 }
    (by decide) (by decide)

/-- C2: every record returned by `listCalendars` stems from a searched
folder whose parent is not the deleted-items folder, carrying
externalId = folder id, name = display name or empty when absent,
primary = (childFolderCount is positive), integration = the fixed tag;
and every searched folder surviving the deleted-items filter contributes
exactly that record. -/
theorem listCalendars_excludes_deleted (deletedItemsFolderId : String)
    (folders : List EwsFolder) :
    (∀ cal ∈ listCalendars deletedItemsFolderId folders,
      ∃ folder ∈ folders,
        folder.ParentFolderId ≠ deletedItemsFolderId ∧
        cal.externalId = folder.Id ∧
        cal.name = folder.DisplayName.getD "" ∧
        cal.primary = decide (folder.ChildFolderCount > 0) ∧
        cal.integration = integrationName)
    ∧ (∀ folder ∈ folders, folder.ParentFolderId ≠ deletedItemsFolderId →
        ({ externalId := folder.Id, name := folder.DisplayName.getD "",
           primary := decide (folder.ChildFolderCount > 0),
           integration := integrationName } : IntegrationCalendar) ∈
          listCalendars deletedItemsFolderId folders) := by
  constructor
  · intro cal hcal
    simp only [listCalendars, List.mem_map, List.mem_filter, bne_iff_ne, ne_eq] at hcal
    obtain ⟨folder, ⟨hf, hne⟩, rfl⟩ := hcal
    exact ⟨folder, hf, hne, rfl, rfl, rfl, rfl⟩
  · intro folder hf hne
    simp only [listCalendars, List.mem_map, List.mem_filter, bne_iff_ne, ne_eq]
    exact ⟨folder, ⟨hf, hne⟩, rfl⟩

/-- A sample calendar folder not parented under the deleted-items folder. -/
def sampleFolder : EwsFolder :=
  { Id := "folder-1", ParentFolderId := "root", DisplayName := none, ChildFolderCount := 2 }

/-- Witness for C2: the concrete surviving folder appears, mapped with an
empty name (its display name is absent) and a positive child count. -/
theorem listCalendars_excludes_deleted_witness :
    ({ externalId := "folder-1", name := "", primary := true,
       integration := "exchange_calendar" } : IntegrationCalendar) ∈
      listCalendars "deleted-items" [sampleFolder] :=
  (listCalendars_excludes_deleted "deleted-items" [sampleFolder]).2 sampleFolder
    (by decide) (by decide)

namespace ExchangeAuthentication

/-- Modelled from the spec: the `ExchangeAuthentication` enum of
`enums.ts` (the file itself is not under src/; the route handler bounds
the value by `min(0).max(1)` with default `STANDARD`, and the spec
declares `enum(STANDARD, NTLM)`). -/
def STANDARD : Nat := 0

/-- Modelled from the spec: the NTLM member of the `ExchangeAuthentication`
enum (see `STANDARD`). -/
def NTLM : Nat := 1

end ExchangeAuthentication

/-- The decrypted credential payload (`this.payload`), the JSON object the
route handler encrypts: url, username, password, and the two enum ordinals.
All fields may be absent (the payload is unvalidated JSON). -/
structure ExchangePayload where
  url : Option String
  username : Option String
  password : Option String
  authenticationMethod : Option Nat
  exchangeVersion : Option Nat
deriving DecidableEq, Repr

/-- The cached EWS client handle, holding what `getExchangeService` writes
into the `ExchangeService` object: the version ordinal passed to the
constructor (unchecked), the credentials, the endpoint url, and whether an
NTLM transport was attached. -/
structure ExchangeServiceHandle where
  exchangeVersion : Option Nat
  username : String
  password : String
  url : String
  ntlmConfigured : Bool
deriving DecidableEq, Repr

/-- Adapter instance state: the decrypted payload (set once at
construction) and the optional cached handle (`this._exchangeService`). -/
structure AdapterState where
  payload : ExchangePayload
  exchangeServiceCache : Option ExchangeServiceHandle
deriving DecidableEq, Repr

/-- The constructor of `ExchangeCalendarService`.  `symmetricDecrypt` and
`parseJson` are the external decryption and `JSON.parse` collaborators
(`none` models a throw); `credentialKey` is `credential.key` and
`processEncryptionKey` is `process.env.CALENDSO_ENCRYPTION_KEY`, both
defaulted to the empty string when absent (`|| ""`).  Any failure of the
decrypt-then-parse pipeline aborts construction with the error message the
source throws; on success the adapter starts with an empty handle cache. -/
def construct (symmetricDecrypt : String → String → Option String)
    (parseJson : String → Option ExchangePayload)
    (credentialKey processEncryptionKey : Option String) : Except String AdapterState :=
  match (symmetricDecrypt (credentialKey.getD "") (processEncryptionKey.getD "")).bind
      parseJson with
  | some payload => .ok { payload := payload, exchangeServiceCache := none }
  | none => .error "Invalid or corrupted Exchange credentials"

/-- The outer catch of `getExchangeService`: classify an error by message
content.  Pre-classified errors (missing configuration, NTLM setup
failures, OpenSSL guidance) are re-raised unchanged; 401/unauthorized,
timeout/connection, certificate and legacy-OpenSSL messages are replaced
by fixed guidance strings; everything else passes through. -/
def classifyServiceError (message : String) : String :=
  if strContains message "NODE_OPTIONS" || strContains message "Missing required" ||
      strContains message "NTLM authentication failed" then
    message
  else if strContains message "401" || strContains message "Unauthorized" then
    "Authentication failed. Please verify your username, password, and ensure the account has proper Exchange permissions."
  else if strContains message "timeout" || strContains message "ECONNREFUSED" ||
      strContains message "ENOTFOUND" then
    "Cannot connect to Exchange server. Please verify the EWS URL is correct and the server is accessible."
  else if strContains message "certificate" || strContains message "SSL" ||
      strContains message "TLS" then
    "SSL/TLS certificate issue. Your Exchange server may be using a self-signed certificate."
  else if strContains message "digital envelope routines::unsupported" then
    "Node.js OpenSSL compatibility issue. Please set NODE_OPTIONS=\"--openssl-legacy-provider\" or upgrade your Exchange server configuration."
  else
    message

/-- The body of the try block of `getExchangeService` when no cached
handle exists: reject payloads with a falsy url, username or password;
otherwise build the handle bound to the payload's version and endpoint and
attach credentials.  When the payload selects NTLM, `ntlmSetup` is the
outcome of constructing the NTLM transport (`@ewsjs/xhr`): on its failure
the source throws the fixed OpenSSL-guidance message if the failure
mentions the legacy-OpenSSL symptom, and otherwise wraps the underlying
message.  Any other `authenticationMethod` value keeps Basic credentials. -/
def buildExchangeService (payload : ExchangePayload) (ntlmSetup : Except String Unit) :
    Except String ExchangeServiceHandle :=
  if !(truthyS payload.url) || !(truthyS payload.username) || !(truthyS payload.password) then
    .error "Missing required Exchange configuration parameters"
  else
    let service : ExchangeServiceHandle :=
      { exchangeVersion := payload.exchangeVersion
        username := payload.username.getD ""
        password := payload.password.getD ""
        url := payload.url.getD ""
        ntlmConfigured := false }
    if payload.authenticationMethod == some ExchangeAuthentication.NTLM then
      match ntlmSetup with
      | .ok _ => .ok { service with ntlmConfigured := true }
      | .error ntlmMessage =>
        if strContains ntlmMessage "digital envelope routines::unsupported" then
          .error "Node.js OpenSSL compatibility issue with NTLM authentication. Please set NODE_OPTIONS=\"--openssl-legacy-provider\" in your environment or use Basic authentication instead."
        else
          .error ("NTLM authentication failed: " ++ ntlmMessage ++
            ". Consider using Basic authentication instead.")
    else
      .ok service

/-- `getExchangeService()` of `CalendarService.ts`: return the cached
handle when present; otherwise run the guarded construction
(`buildExchangeService`), cache a successful handle, and push any failure
through the message classifier of the outer catch. -/
def getExchangeService (st : AdapterState) (ntlmSetup : Except String Unit) :
    Except String (ExchangeServiceHandle × AdapterState) :=
  match st.exchangeServiceCache with
  | some service => .ok (service, st)
  | none =>
    match buildExchangeService st.payload ntlmSetup with
    | .ok service => .ok (service, { st with exchangeServiceCache := some service })
    | .error message => .error (classifyServiceError message)

/-- A public operation as the host invokes it: `listCalendars` first
acquires the service handle and only then performs the remote folder
search, so a handle-acquisition failure aborts the operation before any
network interaction. -/
def listCalendarsOp (st : AdapterState) (ntlmSetup : Except String Unit)
    (deletedItemsFolderId : String) (folders : List EwsFolder) :
    Except String (List IntegrationCalendar × AdapterState) :=
  match getExchangeService st ntlmSetup with
  | .error e => .error e
  | .ok (_, st') => .ok (listCalendars deletedItemsFolderId folders, st')

/-- Number of handle constructions performed by a sequence of acquisitions
on one adapter instance: a construction is an acquisition that starts with
an empty cache and succeeds.  Failed acquisitions leave the state
unchanged (the source rethrows without caching). -/
def countConstructions (st : AdapterState) (oracles : List (Except String Unit)) : Nat :=
  match oracles with
  | [] => 0
  | o :: rest =>
    match getExchangeService st o with
    | .ok (_, st') =>
        (if st.exchangeServiceCache = none then 1 else 0) + countConstructions st' rest
    | .error _ => countConstructions st rest

theorem cached_acquire (st : AdapterState) (svc : ExchangeServiceHandle)
    (o : Except String Unit) (h : st.exchangeServiceCache = some svc) :
    getExchangeService st o = .ok (svc, st) := by
  simp [getExchangeService, h]

theorem acquire_sets_cache (st : AdapterState) (o : Except String Unit)
    (svc : ExchangeServiceHandle) (st' : AdapterState)
    (h : getExchangeService st o = .ok (svc, st')) :
    st'.exchangeServiceCache = some svc := by
  unfold getExchangeService at h
  cases hc : st.exchangeServiceCache with
  | some s =>
    rw [hc] at h
    injection h with h'
    injection h' with h₁ h₂
    rw [← h₂, hc, h₁]
  | none =>
    rw [hc] at h
    cases hb : buildExchangeService st.payload o with
    | ok s =>
      rw [hb] at h
      injection h with h'
      injection h' with h₁ h₂
      rw [← h₂, h₁]
    | error m =>
      rw [hb] at h
      exact absurd h (by simp)

theorem countConstructions_cached (st : AdapterState) (svc : ExchangeServiceHandle)
    (os : List (Except String Unit)) (h : st.exchangeServiceCache = some svc) :
    countConstructions st os = 0 := by
  induction os with
  | nil => rfl
  | cons o rest ih =>
    rw [countConstructions, cached_acquire st svc o h]
    simp [h, ih]

theorem countConstructions_le_one (st : AdapterState) (os : List (Except String Unit)) :
    countConstructions st os ≤ 1 := by
  induction os generalizing st with
  | nil => simp [countConstructions]
  | cons o rest ih =>
    rw [countConstructions]
    cases hg : getExchangeService st o with
    | error e => exact ih st
    | ok pair =>
      obtain ⟨svc, st'⟩ := pair
      have hset : st'.exchangeServiceCache = some svc := acquire_sets_cache st o svc st' hg
      by_cases hc : st.exchangeServiceCache = none
      · simp only [hc, if_pos rfl]
        rw [countConstructions_cached st' svc rest hset]
        simp
      · simp only [if_neg hc]
        simpa using ih st'

/-- The all-absent payload, used to instantiate theorems. -/
def emptyPayload : ExchangePayload :=
  { url := none
    username := none
    password := none
    authenticationMethod := none
    exchangeVersion := none }

/-- A payload whose url decrypted to the empty string (falsy). -/
def emptyUrlPayload : ExchangePayload :=
  { url := some ""
    username := some "user@example.com"
    password := some "pw"
    authenticationMethod := none
    exchangeVersion := none }

/-- A complete Basic-authentication payload. -/
def basicPayload : ExchangePayload :=
  { url := some "https://mail.example.com/ews/Exchange.asmx"
    username := some "user@example.com"
    password := some "pw"
    authenticationMethod := some 0
    exchangeVersion := some 7 }

/-- The handle `buildExchangeService` derives from `basicPayload`. -/
def basicHandle : ExchangeServiceHandle :=
  { exchangeVersion := some 7
    username := "user@example.com"
    password := "pw"
    url := "https://mail.example.com/ews/Exchange.asmx"
    ntlmConfigured := false }

/-- Counterexample for C3 as stated: a failing construction throws the
message "Invalid or corrupted Exchange credentials", which is not the
claimed string "Invalid or corrupted credentials". -/
theorem construct_message_counterexample :
    construct (fun _ _ => none) (fun _ => none) none none =
      .error "Invalid or corrupted Exchange credentials"
    ∧ "Invalid or corrupted Exchange credentials" ≠ "Invalid or corrupted credentials" :=
  ⟨rfl, by decide⟩

/-- C3 (amended message): whenever decryption or JSON parsing of the
credential blob fails — including when the process-wide secret is absent,
which feeds the empty string to decryption — construction fails with the
credential error "Invalid or corrupted Exchange credentials"; and any
successfully constructed adapter holds exactly the parsed payload with an
empty handle cache, so no partially initialized adapter exists. -/
theorem construct_fails_no_partial_state
    (symmetricDecrypt : String → String → Option String)
    (parseJson : String → Option ExchangePayload)
    (credentialKey processEncryptionKey : Option String) :
    ((symmetricDecrypt (credentialKey.getD "") (processEncryptionKey.getD "")).bind
        parseJson = none →
      construct symmetricDecrypt parseJson credentialKey processEncryptionKey =
        .error "Invalid or corrupted Exchange credentials")
    ∧ (∀ st, construct symmetricDecrypt parseJson credentialKey processEncryptionKey =
          .ok st →
        (symmetricDecrypt (credentialKey.getD "") (processEncryptionKey.getD "")).bind
            parseJson = some st.payload
        ∧ st.exchangeServiceCache = none) := by
  constructor
  · intro h
    simp [construct, h]
  · intro st h
    cases hd : (symmetricDecrypt (credentialKey.getD "") (processEncryptionKey.getD "")).bind
        parseJson with
    | none => simp [construct, hd] at h
    | some p =>
      have h' := h
      simp only [construct, hd, Except.ok.injEq] at h'
      subst h'
      exact ⟨rfl, rfl⟩

/-- Witness for C3: with an absent credential key and an absent process
secret, a failing decryption makes construction fail with the credential
error. -/
theorem construct_fails_no_partial_state_witness :
    construct (fun _ _ => none) (fun _ => some emptyPayload) none none =
      .error "Invalid or corrupted Exchange credentials" :=
  (construct_fails_no_partial_state (fun _ _ => none) (fun _ => some emptyPayload)
    none none).1 rfl

/-- Counterexample for C4 as stated: the pre-classified missing-config
error message is "Missing required Exchange configuration parameters",
which is not the claimed string "Missing required configuration
parameters". -/
theorem missing_config_message_counterexample :
    listCalendarsOp { payload := emptyUrlPayload, exchangeServiceCache := none }
        (.ok ()) "deleted-items" [] =
      .error "Missing required Exchange configuration parameters"
    ∧ "Missing required Exchange configuration parameters" ≠
        "Missing required configuration parameters" :=
  ⟨rfl, by decide⟩

/-- C4 (amended message): for every decrypted payload whose url, username
or password is missing or empty, a first public operation on a fresh
adapter fails with the config error "Missing required Exchange
configuration parameters" — for every NTLM-setup outcome and every
possible remote folder tree, i.e. before any network result is consulted —
and the classification layer maps this pre-classified message to itself
rather than re-wrapping it. -/
theorem missing_config_fails_first_operation (p : ExchangePayload)
    (ntlmSetup : Except String Unit) (deletedItemsFolderId : String)
    (folders : List EwsFolder)
    (h : truthyS p.url = false ∨ truthyS p.username = false ∨ truthyS p.password = false) :
    listCalendarsOp { payload := p, exchangeServiceCache := none } ntlmSetup
        deletedItemsFolderId folders =
      .error "Missing required Exchange configuration parameters"
    ∧ getExchangeService { payload := p, exchangeServiceCache := none } ntlmSetup =
        .error "Missing required Exchange configuration parameters"
    ∧ classifyServiceError "Missing required Exchange configuration parameters" =
        "Missing required Exchange configuration parameters" := by
  have hcond : (!(truthyS p.url) || !(truthyS p.username) || !(truthyS p.password)) = true := by
    rcases h with h | h | h <;> simp [h]
  have hclass : classifyServiceError "Missing required Exchange configuration parameters" =
      "Missing required Exchange configuration parameters" := by decide
  have hbuild : buildExchangeService p ntlmSetup =
      .error "Missing required Exchange configuration parameters" := by
    unfold buildExchangeService
    rw [if_pos hcond]
  have hsvc : getExchangeService { payload := p, exchangeServiceCache := none } ntlmSetup =
      .error "Missing required Exchange configuration parameters" := by
    unfold getExchangeService
    simp only [hbuild, hclass]
  exact ⟨by simp [listCalendarsOp, hsvc], hsvc, hclass⟩

/-- Witness for C4: a payload with an empty url fails the first operation
with the config error, even though the oracle offers folders and a failing
NTLM setup. -/
theorem missing_config_fails_first_operation_witness :
    listCalendarsOp { payload := emptyUrlPayload, exchangeServiceCache := none }
        (.error "digital envelope routines::unsupported") "deleted-items" [sampleFolder] =
      .error "Missing required Exchange configuration parameters" :=
  (missing_config_fails_first_operation emptyUrlPayload
    (.error "digital envelope routines::unsupported") "deleted-items" [sampleFolder]
    (Or.inl (by decide))).1

/-- C5: on one adapter instance without cleanup, the handle is constructed
at most once: an acquisition finding a cached handle returns it with the
state unchanged, a successful acquisition fixes the handle that every
later acquisition returns identically, and over any sequence of
acquisitions the number of constructions (cache-empty acquisitions that
succeed) is at most one. -/
theorem exchangeService_constructed_at_most_once :
    (∀ (st : AdapterState) (svc : ExchangeServiceHandle) (o : Except String Unit),
      st.exchangeServiceCache = some svc → getExchangeService st o = .ok (svc, st))
    ∧ (∀ (st : AdapterState) (o : Except String Unit) (svc : ExchangeServiceHandle)
        (st' : AdapterState) (o' : Except String Unit),
        getExchangeService st o = .ok (svc, st') →
        getExchangeService st' o' = .ok (svc, st'))
    ∧ (∀ (st : AdapterState) (os : List (Except String Unit)),
        countConstructions st os ≤ 1) := by
  refine ⟨cached_acquire, ?_, countConstructions_le_one⟩
  intro st o svc st' o' h
  exact cached_acquire st' svc o' (acquire_sets_cache st o svc st' h)

/-- Witness for C5: a concrete adapter holding a cached handle returns
that very handle and leaves the state unchanged. -/
theorem exchangeService_constructed_at_most_once_witness :
    getExchangeService
        { payload := basicPayload, exchangeServiceCache := some basicHandle } (.ok ()) =
      .ok (basicHandle, { payload := basicPayload, exchangeServiceCache := some basicHandle }) :=
  (exchangeService_constructed_at_most_once).1
    { payload := basicPayload, exchangeServiceCache := some basicHandle } basicHandle
    (.ok ()) rfl

namespace ExchangeAuthentication

/-- Modelled from the spec: the numeric member values of the
`ExchangeAuthentication` enum (`Object.values(...).includes(n)` on a
numeric TS enum holds for a number n exactly when n is one of the declared
ordinals). -/
def values : List Nat := [STANDARD, NTLM]

end ExchangeAuthentication

namespace ExchangeVersion

/-- Modelled from the spec: the `ExchangeVersion` enum of `enums.ts` (not
under src/) is ordinal 2007..2019; the route handler bounds it by
`min(0).max(8)` with default `Exchange2016` (= 7 per the repository's
bounty notes, which also record `Exchange2019 = 8`), giving
`Exchange2013 = 4` in the ordinal sequence 2007 SP1, 2010, 2010 SP1,
2010 SP2, 2013, 2013 SP1, 2015, 2016, 2019. -/
def Exchange2013 : Nat := 4

/-- Modelled from the spec: the numeric member values 0..8 of the
`ExchangeVersion` enum (see `Exchange2013`). -/
def values : List Nat := [0, 1, 2, 3, 4, 5, 6, 7, 8]

end ExchangeVersion

/-- The protocol and path components the validator reads off a parsed
WHATWG URL (`new URL(url)`); parsing itself is the external platform
collaborator, passed as an oracle returning `none` when the constructor
throws. -/
structure ParsedUrl where
  protocol : String
  pathname : String
deriving DecidableEq, Repr

/-- `isValidEwsUrl` of `validation.ts`: the URL must parse, use the
`https:` protocol, and have a (lowercased) path containing one of the EWS
path markers. -/
def isValidEwsUrl (parseURL : String → Option ParsedUrl) (url : String) : Bool :=
  match parseURL url with
  | none => false
  | some u =>
    if u.protocol != "https:" then false
    else
      let path := asciiLower u.pathname
      strContains path "/ews/" || strContains path "/exchange.asmx" ||
        strContains path "/microsoft-server-activesync"

/-- The JS regex whitespace class backslash-s: ASCII whitespace plus the
Unicode space separators, NEL-adjacent spaces, line and paragraph
separators and the BOM. -/
def isJsWhitespace (c : Char) : Bool :=
  c = ' ' || c = '\t' || c = '\n' || c = '\r' || c = '\x0b' || c = '\x0c' ||
  c = ' ' || c = ' ' || (' ' ≤ c && c ≤ ' ') || c = ' ' ||
  c = ' ' || c = ' ' || c = ' ' || c = '　' || c = '﻿'

/-- JS `String.prototype.split` on a one-character separator, over
character lists. -/
def splitOnAt (sep : Char) : List Char → List (List Char)
  | [] => [[]]
  | c :: cs =>
    let rest := splitOnAt sep cs
    if c = sep then [] :: rest
    else
      match rest with
      | [] => [[c]]
      | h :: t => (c :: h) :: t

/-- `isValidEmail` of `validation.ts`, the anchored regex
`[^\s@]+ @ [^\s@]+ \. [^\s@]+`: it matches exactly when the string has a
single at-sign splitting it into a nonempty whitespace-free local part and
a nonempty whitespace-free domain that contains a dot which is neither its
first nor its last character (a dot is itself admitted by the
bracket class, so the regex's choice of separating dot comes down to the
existence of such an interior dot). -/
def isValidEmail (email : String) : Bool :=
  match splitOnAt '@' email.data with
  | [localPart, domain] =>
    !localPart.isEmpty && localPart.all (fun c => !(isJsWhitespace c)) &&
    !domain.isEmpty && domain.all (fun c => !(isJsWhitespace c)) &&
    ((domain.drop 1).dropLast.contains '.')
  | _ => false

/-- Result shape of `ExchangeConfigValidator.validate`. -/
structure ValidationResult where
  isValid : Bool
  errors : List String
deriving DecidableEq, Repr

/-- `ExchangeConfigValidator.validate` of `validation.ts`: one errors
array, pushed to by five successive checks (url required and EWS-shaped;
username required and email-shaped; password required and non-empty;
authenticationMethod, when present, among the enum values; exchangeVersion,
when present, among the enum values); `isValid` is emptiness of the
array. -/
def validate (parseURL : String → Option ParsedUrl) (config : ExchangePayload) :
    ValidationResult :=
  let errors : List String := []
  let errors := if !(truthyS config.url) then errors ++ ["Exchange URL is required"]
    else if !(isValidEwsUrl parseURL (config.url.getD "")) then
      errors ++ ["URL must be a valid Exchange Web Services (EWS) endpoint (e.g., https://mail.company.com/ews/Exchange.asmx)"]
    else errors
  let errors := if !(truthyS config.username) then errors ++ ["Username is required"]
    else if !(isValidEmail (config.username.getD "")) then
      errors ++ ["Username must be a valid email address"]
    else errors
  let errors := if !(truthyS config.password) then errors ++ ["Password is required"]
    else if (config.password.getD "").length < 1 then errors ++ ["Password cannot be empty"]
    else errors
  let errors :=
    match config.authenticationMethod with
    | none => errors
    | some a =>
      if ExchangeAuthentication.values.contains a then errors
      else errors ++ ["Invalid authentication method"]
  let errors :=
    match config.exchangeVersion with
    | none => errors
    | some v =>
      if ExchangeVersion.values.contains v then errors
      else errors ++ ["Invalid Exchange version"]
  { isValid := errors.length == 0, errors := errors }

/-- Stated from the spec's words: the url rule in isolation (required,
then a parseable absolute HTTPS URL with an EWS path marker). -/
def urlRule (parseURL : String → Option ParsedUrl) (config : ExchangePayload) :
    List String :=
  if !(truthyS config.url) then ["Exchange URL is required"]
  else if !(isValidEwsUrl parseURL (config.url.getD "")) then
    ["URL must be a valid Exchange Web Services (EWS) endpoint (e.g., https://mail.company.com/ews/Exchange.asmx)"]
  else []

/-- Stated from the spec's words: the username rule in isolation
(required, then email-shaped). -/
def usernameRule (config : ExchangePayload) : List String :=
  if !(truthyS config.username) then ["Username is required"]
  else if !(isValidEmail (config.username.getD "")) then
    ["Username must be a valid email address"]
  else []

/-- Stated from the spec's words: the password rule in isolation
(required and non-empty). -/
def passwordRule (config : ExchangePayload) : List String :=
  if !(truthyS config.password) then ["Password is required"]
  else if (config.password.getD "").length < 1 then ["Password cannot be empty"]
  else []

/-- Stated from the spec's words: the authenticationMethod rule in
isolation (if present, in its enum). -/
def authenticationMethodRule (config : ExchangePayload) : List String :=
  match config.authenticationMethod with
  | none => []
  | some a =>
    if ExchangeAuthentication.values.contains a then [] else ["Invalid authentication method"]

/-- Stated from the spec's words: the exchangeVersion rule in isolation
(if present, in its enum). -/
def exchangeVersionRule (config : ExchangePayload) : List String :=
  match config.exchangeVersion with
  | none => []
  | some v =>
    if ExchangeVersion.values.contains v then [] else ["Invalid Exchange version"]

/-- The candidate config whose url, username and password all decrypted to
the empty string. -/
def emptyStringsConfig : ExchangePayload :=
  { url := some ""
    username := some ""
    password := some ""
    authenticationMethod := none
    exchangeVersion := none }

theorem step_ite (es m1 m2 : List String) (c1 c2 : Prop) [Decidable c1] [Decidable c2] :
    (if c1 then es ++ m1 else if c2 then es ++ m2 else es) =
      es ++ (if c1 then m1 else if c2 then m2 else []) := by
  by_cases h1 : c1
  · simp [h1]
  · by_cases h2 : c2 <;> simp [h1, h2]

theorem step_match (es m : List String) (o : Option Nat) (vals : List Nat) :
    (match o with
      | none => es
      | some a => if vals.contains a then es else es ++ m) =
      es ++ (match o with
        | none => []
        | some a => if vals.contains a then [] else m) := by
  cases o with
  | none => simp
  | some a =>
    by_cases h : a ∈ vals
    · simp [h]
    · simp [h]

/-- C6: for every candidate config, the errors list of `validate` is the
concatenation of the five independently evaluated rule outcomes — all
violations collected in one call, never only the first — with `isValid`
true exactly when the list is empty; an input with empty url, empty
username and empty password yields exactly the three distinct required
error strings. -/
theorem validate_collects_all_violations (parseURL : String → Option ParsedUrl)
    (config : ExchangePayload) :
    (validate parseURL config).errors =
        urlRule parseURL config ++ usernameRule config ++ passwordRule config ++
          authenticationMethodRule config ++ exchangeVersionRule config
    ∧ ((validate parseURL config).isValid = true ↔ (validate parseURL config).errors = [])
    ∧ (validate parseURL emptyStringsConfig).errors =
        ["Exchange URL is required", "Username is required", "Password is required"]
    ∧ ["Exchange URL is required", "Username is required", "Password is required"].Nodup := by
  refine ⟨?_, ?_, ?_, by decide⟩
  · simp only [validate, urlRule, usernameRule, passwordRule, authenticationMethodRule,
      exchangeVersionRule, step_ite, step_match]
    simp [List.append_assoc]
  · have hiv : (validate parseURL config).isValid =
        ((validate parseURL config).errors.length == 0) := rfl
    rw [hiv]
    simp [List.length_eq_zero]
  · rfl

/-- Host-model person: the adapter reads only the email. -/
structure Person where
  email : String
deriving DecidableEq, Repr

/-- Host-model team payload: the adapter reads only the member list
(`event.team?.members`; an absent team or member list skips the loop). -/
structure Team where
  members : List Person
deriving DecidableEq, Repr

/-- Host-model `CalendarEvent`, restricted to the fields the adapter
reads. -/
structure CalendarEvent where
  title : String
  startTime : String
  endTime : String
  location : Option String
  description : Option String
  attendees : List Person
  team : Option Team
deriving DecidableEq, Repr

/-- The adapter's create/update result shape (`NewCalendarEventType`).
`additionalInfo` is a JSON object, kept as an association list. -/
structure NewCalendarEventType where
  uid : String
  id : String
  password : String
  type : String
  url : String
  additionalInfo : List (String × String)
deriving DecidableEq, Repr

/-- The remote appointment object as `createEvent` writes it before
saving: subject, parsed start and end instants (`DateTime.Parse` is the
external library's parser, passed as the oracle `parseDT`), location,
body, and the ordered required-attendee list. -/
structure AppointmentDraft where
  Subject : String
  Start : Int
  End : Int
  Location : String
  Body : String
  RequiredAttendees : List String
deriving DecidableEq, Repr

/-- `appointment.RequiredAttendees.Add(new Attendee(email))`: appends one
attendee entry, no deduplication. -/
def addRequiredAttendee (appointment : AppointmentDraft) (person : Person) :
    AppointmentDraft :=
  { appointment with
    RequiredAttendees := appointment.RequiredAttendees ++ [person.email] }

/-- `createEvent(event)` of `CalendarService.ts`, success path: build the
appointment (subject = title; start and end parsed from the event's
timestamps; location and body defaulted to the empty string via
`|| ""`, which on an optional string is `getD ""`), add each explicit
attendee then each team member individually, and return the record whose
uid and id are the remote unique identifier assigned by the save
(`assignedUid`), everything else blank. -/
def createEvent (parseDT : String → Int) (event : CalendarEvent) (assignedUid : String) :
    AppointmentDraft × NewCalendarEventType :=
  let appointment : AppointmentDraft :=
    { Subject := event.title
      Start := parseDT event.startTime
      End := parseDT event.endTime
      Location := event.location.getD ""
      Body := event.description.getD ""
      RequiredAttendees := [] }
  let appointment := event.attendees.foldl addRequiredAttendee appointment
  let appointment :=
    match event.team with
    | some team => team.members.foldl addRequiredAttendee appointment
    | none => appointment
  (appointment,
   { uid := assignedUid, id := assignedUid, password := "", type := "", url := "",
     additionalInfo := [] })

theorem foldl_addRequiredAttendee (people : List Person) (appointment : AppointmentDraft) :
    people.foldl addRequiredAttendee appointment =
      { appointment with
        RequiredAttendees :=
          appointment.RequiredAttendees ++ people.map Person.email } := by
  induction people generalizing appointment with
  | nil => simp
  | cons person rest ih =>
    rw [List.foldl_cons, ih]
    simp [addRequiredAttendee]

/-- C7: `createEvent` builds the remote appointment with subject = title,
start and end = the parsed timestamps, location and body defaulting to
empty, and required attendees equal to the explicit attendee emails
followed by the team-member emails, in order and without deduplication; on
success the result's uid and id both equal the newly assigned remote
unique identifier and its password, type, url and additionalInfo are
blank. -/
theorem createEvent_builds_appointment (parseDT : String → Int) (event : CalendarEvent)
    (assignedUid : String) :
    (createEvent parseDT event assignedUid).1.Subject = event.title
    ∧ (createEvent parseDT event assignedUid).1.Start = parseDT event.startTime
    ∧ (createEvent parseDT event assignedUid).1.End = parseDT event.endTime
    ∧ (createEvent parseDT event assignedUid).1.Location = event.location.getD ""
    ∧ (createEvent parseDT event assignedUid).1.Body = event.description.getD ""
    ∧ (createEvent parseDT event assignedUid).1.RequiredAttendees =
        event.attendees.map Person.email ++
          (match event.team with
            | some team => team.members.map Person.email
            | none => [])
    ∧ (createEvent parseDT event assignedUid).2 =
        { uid := assignedUid, id := assignedUid, password := "", type := "", url := "",
          additionalInfo := [] } := by
  cases htm : event.team with
  | none =>
    simp [createEvent, foldl_addRequiredAttendee, htm]
  | some team =>
    simp [createEvent, foldl_addRequiredAttendee, htm]

/-- Remote failures surfaced by the EWS library to `updateEvent` and
`deleteEvent`: the resolve-by-id failure (the server reports no such
item) and any other error. -/
inductive RemoteError
  | notFound
  | other (msg : String)
deriving DecidableEq, Repr

/-- `Appointment.Bind(service, new ItemId(uid))` of the EWS library,
modelled against the server's store of resolvable item uids: resolution
succeeds exactly when the store contains the uid, and otherwise rejects
with the item-not-found service error. -/
def bindItem (store : List String) (uid : String) : Except RemoteError Unit :=
  if uid ∈ store then .ok () else .error .notFound

/-- `updateEvent(uid, event)` of `CalendarService.ts`, projected onto
resolution: bind the existing remote item by uid — the adapter's catch
logs and rethrows a bind failure unchanged — and on success return the
result record carrying the bound item's unique identifier.  The field
mutations and the Update call's conflict/notification policies do not
affect resolution or the returned identifier and are not modelled. -/
def updateEvent (store : List String) (uid : String) :
    Except RemoteError NewCalendarEventType :=
  match bindItem store uid with
  | .error e => .error e
  | .ok _ =>
    .ok { uid := uid, id := uid, password := "", type := "", url := "",
          additionalInfo := [] }

/-- `deleteEvent(uid)` of `CalendarService.ts`: bind the item by uid
(rethrowing a bind failure unchanged), then
`Delete(DeleteMode.MoveToDeletedItems)`, which moves the item out of the
resolvable store; the resulting store is returned to track the server
state across calls. -/
def deleteEvent (store : List String) (uid : String) :
    Except RemoteError (List String) :=
  match bindItem store uid with
  | .error e => .error e
  | .ok _ => .ok (store.filter (fun u => u != uid))

/-- C8: `updateEvent` and `deleteEvent` on a uid the server cannot resolve
fail with the not-found error; and after a successful `deleteEvent` on a
previously resolvable uid, a subsequent `updateEvent` or `deleteEvent` on
the same uid fails with the not-found error. -/
theorem update_delete_not_found (store : List String) (uid : String) :
    (uid ∉ store →
      updateEvent store uid = .error .notFound
      ∧ deleteEvent store uid = .error .notFound)
    ∧ (uid ∈ store →
      deleteEvent store uid = .ok (store.filter (fun u => u != uid))
      ∧ updateEvent (store.filter (fun u => u != uid)) uid = .error .notFound
      ∧ deleteEvent (store.filter (fun u => u != uid)) uid = .error .notFound) := by
  have hnot : uid ∉ store.filter (fun u => u != uid) := by
    simp [List.mem_filter]
  constructor
  · intro h
    exact ⟨by simp [updateEvent, bindItem, h], by simp [deleteEvent, bindItem, h]⟩
  · intro h
    exact ⟨by simp [deleteEvent, bindItem, h],
      by simp [updateEvent, bindItem, hnot],
      by simp [deleteEvent, bindItem, hnot]⟩

/-- Witness for C8: on a server with one item, deleting it succeeds and
later update and delete calls on the same uid fail with the not-found
error; on an empty server both calls fail with the not-found error. -/
theorem update_delete_not_found_witness :
    (updateEvent [] "item-1" = .error .notFound
      ∧ deleteEvent [] "item-1" = .error .notFound)
    ∧ (deleteEvent ["item-1"] "item-1" = .ok []
      ∧ updateEvent [] "item-1" = .error .notFound
      ∧ deleteEvent [] "item-1" = .error .notFound) :=
  ⟨(update_delete_not_found [] "item-1").1 (by decide),
   (update_delete_not_found ["item-1"] "item-1").2 (by decide)⟩

/-- The upgrade advisory of `getSuggestions`. -/
def upgradeSuggestion : String :=
  "Consider upgrading to Exchange 2013 or later for better compatibility"

/-- The trailing, url-independent part of
`ExchangeConfigValidator.getSuggestions`: the NTLM legacy-crypto advisory
when the configured method is NTLM, then the upgrade advisory when the
configured version is truthy (set and nonzero) and below the Exchange2013
cutoff. -/
def suggestionsTail (config : ExchangePayload) (suggestions : List String) : List String :=
  let suggestions :=
    if config.authenticationMethod == some ExchangeAuthentication.NTLM then
      suggestions ++
        ["NTLM authentication may require NODE_OPTIONS=\x27--openssl-legacy-provider\x27 for older Exchange servers"]
    else suggestions
  if truthyN config.exchangeVersion ∧
      config.exchangeVersion.getD 0 < ExchangeVersion.Exchange2013 then
    suggestions ++ [upgradeSuggestion]
  else suggestions

/-- The url-dependent advisories of `getSuggestions`: recommend HTTPS when
the parsed protocol is `http:`, and the canonical EWS path shape when the
lowercased path lacks `/ews/`. -/
def urlSuggestions (u : ParsedUrl) : List String :=
  let suggestions : List String := []
  let suggestions :=
    if u.protocol == "http:" then
      suggestions ++ ["Consider using HTTPS instead of HTTP for better security"]
    else suggestions
  if !(strContains (asciiLower u.pathname) "/ews/") then
    suggestions ++ ["EWS URL typically ends with \x27/ews/Exchange.asmx\x27"]
  else suggestions

/-- `ExchangeConfigValidator.getSuggestions` of `validation.ts`: when the
config's url is truthy the source calls `new URL(config.url)` without a
catch, so an unparseable url makes the whole call throw (`none` here);
otherwise it collects the HTTP-protocol and EWS-path advisories off the
parsed url, followed by the NTLM and version advisories. -/
def getSuggestions (parseURL : String → Option ParsedUrl) (config : ExchangePayload) :
    Option (List String) :=
  if truthyS config.url then
    match parseURL (config.url.getD "") with
    | none => none
    | some u => some (suggestionsTail config (urlSuggestions u))
  else some (suggestionsTail config [])

/-- A config whose exchangeVersion is the 2007 SP1 ordinal 0 (set, and
predating the Exchange2013 cutoff). -/
def version2007Config : ExchangePayload :=
  { url := none
    username := none
    password := none
    authenticationMethod := none
    exchangeVersion := some 0 }

/-- A config whose exchangeVersion is the 2010 ordinal 1 (set, nonzero,
predating the Exchange2013 cutoff). -/
def version2010Config : ExchangePayload :=
  { url := none
    username := none
    password := none
    authenticationMethod := none
    exchangeVersion := some 0x1 }

/-- Counterexample for C9 as stated: the config with exchangeVersion set
to ordinal 0 (Exchange 2007 SP1), which predates the Exchange2013 cutoff,
receives no upgrade suggestion — the source guards the check with JS
truthiness (`config.exchangeVersion && ...`), and 0 is falsy. -/
theorem getSuggestions_zero_version_counterexample :
    version2007Config.exchangeVersion = some 0
    ∧ 0 < ExchangeVersion.Exchange2013
    ∧ getSuggestions (fun _ => none) version2007Config = some []
    ∧ upgradeSuggestion ∉ ([] : List String) :=
  ⟨rfl, by decide, rfl, by decide⟩

theorem suggestionsTail_has_upgrade (config : ExchangePayload) (s : List String)
    (hcond : truthyN config.exchangeVersion = true ∧
      config.exchangeVersion.getD 0 < ExchangeVersion.Exchange2013) :
    upgradeSuggestion ∈ suggestionsTail config s := by
  simp only [suggestionsTail]
  rw [if_pos hcond]
  simp

/-- C9 (amended): for every config whose url, when truthy, is parseable,
and whose exchangeVersion is set to a nonzero ordinal below the
Exchange2013 cutoff, `getSuggestions` returns a list containing the
upgrade suggestion. -/
theorem getSuggestions_upgrade_for_old_versions (parseURL : String → Option ParsedUrl)
    (config : ExchangePayload) (v : Nat)
    (hv : config.exchangeVersion = some v) (h0 : v ≠ 0)
    (hlt : v < ExchangeVersion.Exchange2013)
    (hurl : truthyS config.url = true → (parseURL (config.url.getD "")).isSome = true) :
    (getSuggestions parseURL config).isSome = true
    ∧ upgradeSuggestion ∈ (getSuggestions parseURL config).getD [] := by
  have hcond : truthyN config.exchangeVersion = true ∧
      config.exchangeVersion.getD 0 < ExchangeVersion.Exchange2013 := by
    rw [hv]
    exact ⟨by simpa [truthyN] using h0, by simpa using hlt⟩
  have heq : ∃ s, getSuggestions parseURL config = some (suggestionsTail config s) := by
    by_cases hu : truthyS config.url = true
    · obtain ⟨u, hpu⟩ := Option.isSome_iff_exists.mp (hurl hu)
      refine ⟨urlSuggestions u, ?_⟩
      simp only [getSuggestions]
      rw [if_pos hu, hpu]
    · refine ⟨[], ?_⟩
      simp only [getSuggestions]
      rw [if_neg hu]
  obtain ⟨s, hs⟩ := heq
  rw [hs]
  exact ⟨rfl, by simpa using suggestionsTail_has_upgrade config s hcond⟩

/-- Witness for C9 (amended): the config with version ordinal 1 (Exchange
2010) receives the upgrade suggestion. -/
theorem getSuggestions_upgrade_for_old_versions_witness :
    (getSuggestions (fun _ => none) version2010Config).isSome = true
    ∧ upgradeSuggestion ∈ (getSuggestions (fun _ => none) version2010Config).getD [] :=
  getSuggestions_upgrade_for_old_versions (fun _ => none) version2010Config 1 rfl
    (by decide) (by decide) (by decide)

/-- The handle `buildExchangeService` derives from a payload with truthy
url, username and password and non-NTLM authentication. -/
def basicHandleOf (p : ExchangePayload) : ExchangeServiceHandle :=
  { exchangeVersion := p.exchangeVersion
    username := p.username.getD ""
    password := p.password.getD ""
    url := p.url.getD ""
    ntlmConfigured := false }

/-- A payload whose authenticationMethod (42) and exchangeVersion (999)
both lie outside their declared enums, with the three required strings
present. -/
def invalidEnumsPayload : ExchangePayload :=
  { url := some "https://mail.example.com/ews/Exchange.asmx"
    username := some "user@example.com"
    password := some "pw"
    authenticationMethod := some 42
    exchangeVersion := some 999 }

/-- C10: for every payload with truthy url, username and password whose
authenticationMethod is anything other than the NTLM enum value (including
values outside the declared enum), handle acquisition succeeds with Basic
credentials — no enum-range error is raised for any authenticationMethod
or exchangeVersion value, the Config Validator's verdict is never
consulted — and the exchangeVersion value is passed to the handle
constructor unchanged. -/
theorem nonNtlm_acquisition_never_range_checks (p : ExchangePayload)
    (o : Except String Unit)
    (hu : truthyS p.url = true) (hn : truthyS p.username = true)
    (hp : truthyS p.password = true)
    (hauth : p.authenticationMethod ≠ some ExchangeAuthentication.NTLM) :
    getExchangeService { payload := p, exchangeServiceCache := none } o =
      .ok (basicHandleOf p, { payload := p, exchangeServiceCache := some (basicHandleOf p) })
    ∧ (basicHandleOf p).exchangeVersion = p.exchangeVersion
    ∧ (basicHandleOf p).ntlmConfigured = false := by
  have hcond : (!(truthyS p.url) || !(truthyS p.username) || !(truthyS p.password)) = false := by
    simp [hu, hn, hp]
  have hne : (p.authenticationMethod == some ExchangeAuthentication.NTLM) = false := by
    simpa using hauth
  have hbuild : buildExchangeService p o = .ok (basicHandleOf p) := by
    simp only [buildExchangeService, basicHandleOf, hcond, hne]
    simp
  refine ⟨?_, rfl, rfl⟩
  simp only [getExchangeService, hbuild]

/-- Witness for C10: the out-of-enum payload (authenticationMethod 42,
exchangeVersion 999) is rejected by the Config Validator, yet handle
acquisition succeeds with Basic credentials and version 999 passed
through. -/
theorem nonNtlm_acquisition_never_range_checks_witness :
    (validate (fun _ => none) invalidEnumsPayload).isValid = false
    ∧ getExchangeService { payload := invalidEnumsPayload, exchangeServiceCache := none }
        (.ok ()) =
      .ok (basicHandleOf invalidEnumsPayload,
           { payload := invalidEnumsPayload,
             exchangeServiceCache := some (basicHandleOf invalidEnumsPayload) }) :=
  ⟨by decide,
   (nonNtlm_acquisition_never_range_checks invalidEnumsPayload (.ok ()) (by decide)
     (by decide) (by decide) (by decide)).1⟩

end Exchange
